import Mathlib

/-!
Verification of the validation-and-ticketing core of the debit-card
replacement service (`src/adk_agents/service_agent.py`).

Python strings are modelled as lists of Unicode code points (`List Char`,
abbreviated `PyStr`); `len` is list length, truthiness of a string is
non-emptiness.  The Python string methods used by the source
(`str.isdigit`, `str.strip`, `str.lower`) are modelled character-wise
below; each model's doc comment states the fragment of the CPython
Unicode semantics it covers.
-/

/-- Python strings as lists of Unicode code points. -/
abbrev PyStr := List Char

namespace CardService

/-- Models CPython `Py_UNICODE_ISSPACE` (the character class removed by
`str.strip()`): ASCII whitespace and separators, plus the Unicode
whitespace code points. -/
def pyIsSpace (c : Char) : Bool :=
  (0x09 ≤ c.toNat && c.toNat ≤ 0x0D) ||
  (0x1C ≤ c.toNat && c.toNat ≤ 0x1F) ||
  c.toNat = 0x20 || c.toNat = 0x85 || c.toNat = 0xA0 ||
  c.toNat = 0x1680 ||
  (0x2000 ≤ c.toNat && c.toNat ≤ 0x200A) ||
  c.toNat = 0x2028 || c.toNat = 0x2029 ||
  c.toNat = 0x202F || c.toNat = 0x205F || c.toNat = 0x3000

/-- Models Python `str.strip()`: drop leading and trailing whitespace. -/
def pyStrip (s : PyStr) : PyStr :=
  ((s.dropWhile pyIsSpace).reverse.dropWhile pyIsSpace).reverse

/-- Models CPython `Py_UNICODE_ISDIGIT` (the per-character test of
`str.isdigit()`): characters of Unicode Numeric_Type Decimal or Digit.
Covers the ASCII digits, the superscript and subscript digits, and the
decimal-digit (category Nd) blocks of the Basic Multilingual Plane. -/
def pyIsDigit (c : Char) : Bool :=
  (0x30 ≤ c.toNat && c.toNat ≤ 0x39) ||        -- ASCII 0-9
  c.toNat = 0xB2 || c.toNat = 0xB3 || c.toNat = 0xB9 ||  -- superscripts 2 3 1
  c.toNat = 0x2070 || (0x2074 ≤ c.toNat && c.toNat ≤ 0x2079) ||
  (0x2080 ≤ c.toNat && c.toNat ≤ 0x2089) ||    -- subscripts
  (0x660 ≤ c.toNat && c.toNat ≤ 0x669) ||      -- Arabic-Indic
  (0x6F0 ≤ c.toNat && c.toNat ≤ 0x6F9) ||      -- Extended Arabic-Indic
  (0x7C0 ≤ c.toNat && c.toNat ≤ 0x7C9) ||      -- NKo
  (0x966 ≤ c.toNat && c.toNat ≤ 0x96F) ||      -- Devanagari
  (0x9E6 ≤ c.toNat && c.toNat ≤ 0x9EF) ||      -- Bengali
  (0xA66 ≤ c.toNat && c.toNat ≤ 0xA6F) ||      -- Gurmukhi
  (0xAE6 ≤ c.toNat && c.toNat ≤ 0xAEF) ||      -- Gujarati
  (0xB66 ≤ c.toNat && c.toNat ≤ 0xB6F) ||      -- Oriya
  (0xBE6 ≤ c.toNat && c.toNat ≤ 0xBEF) ||      -- Tamil
  (0xC66 ≤ c.toNat && c.toNat ≤ 0xC6F) ||      -- Telugu
  (0xCE6 ≤ c.toNat && c.toNat ≤ 0xCEF) ||      -- Kannada
  (0xD66 ≤ c.toNat && c.toNat ≤ 0xD6F) ||      -- Malayalam
  (0xDE6 ≤ c.toNat && c.toNat ≤ 0xDEF) ||      -- Sinhala
  (0xE50 ≤ c.toNat && c.toNat ≤ 0xE59) ||      -- Thai
  (0xED0 ≤ c.toNat && c.toNat ≤ 0xED9) ||      -- Lao
  (0xF20 ≤ c.toNat && c.toNat ≤ 0xF29) ||      -- Tibetan
  (0x1040 ≤ c.toNat && c.toNat ≤ 0x1049) ||    -- Myanmar
  (0x1090 ≤ c.toNat && c.toNat ≤ 0x1099) ||    -- Myanmar Shan
  (0x17E0 ≤ c.toNat && c.toNat ≤ 0x17E9) ||    -- Khmer
  (0x1810 ≤ c.toNat && c.toNat ≤ 0x1819) ||    -- Mongolian
  (0x1946 ≤ c.toNat && c.toNat ≤ 0x194F) ||    -- Limbu
  (0x19D0 ≤ c.toNat && c.toNat ≤ 0x19D9) ||    -- New Tai Lue
  (0x1A80 ≤ c.toNat && c.toNat ≤ 0x1A89) ||    -- Tai Tham Hora
  (0x1A90 ≤ c.toNat && c.toNat ≤ 0x1A99) ||    -- Tai Tham Tham
  (0x1B50 ≤ c.toNat && c.toNat ≤ 0x1B59) ||    -- Balinese
  (0x1BB0 ≤ c.toNat && c.toNat ≤ 0x1BB9) ||    -- Sundanese
  (0x1C40 ≤ c.toNat && c.toNat ≤ 0x1C49) ||    -- Lepcha
  (0x1C50 ≤ c.toNat && c.toNat ≤ 0x1C59) ||    -- Ol Chiki
  (0xA620 ≤ c.toNat && c.toNat ≤ 0xA629) ||    -- Vai
  (0xA8D0 ≤ c.toNat && c.toNat ≤ 0xA8D9) ||    -- Saurashtra
  (0xA900 ≤ c.toNat && c.toNat ≤ 0xA909) ||    -- Kayah Li
  (0xA9D0 ≤ c.toNat && c.toNat ≤ 0xA9D9) ||    -- Javanese
  (0xA9F0 ≤ c.toNat && c.toNat ≤ 0xA9F9) ||    -- Myanmar Tai Laing
  (0xAA50 ≤ c.toNat && c.toNat ≤ 0xAA59) ||    -- Cham
  (0xABF0 ≤ c.toNat && c.toNat ≤ 0xABF9) ||    -- Meetei Mayek
  (0xFF10 ≤ c.toNat && c.toNat ≤ 0xFF19)       -- Fullwidth

/-- Models Python `str.isdigit()`: non-empty and every character a
digit character. -/
def pyIsDigitStr (s : PyStr) : Bool :=
  !s.isEmpty && s.all pyIsDigit

/-- Models Python `str.lower()` character-wise on the fragment relevant
here: ASCII `A`-`Z` and Latin-1 uppercase letters map down by 32, the
Kelvin sign and the Angstrom sign map to their lowercase Latin forms,
every other character is unchanged.  (The only one-to-many mapping of
CPython `str.lower`, dotted capital I, never occurs in a string whose
lowercase form is one of the four reason keywords, so membership tests
against the keyword list agree with CPython on all inputs.) -/
def pyLowerChar (c : Char) : Char :=
  if 0x41 ≤ c.toNat ∧ c.toNat ≤ 0x5A then Char.ofNat (c.toNat + 32)
  else if (0xC0 ≤ c.toNat ∧ c.toNat ≤ 0xDE) ∧ c.toNat ≠ 0xD7 then Char.ofNat (c.toNat + 32)
  else if c.toNat = 0x212A then 'k'
  else if c.toNat = 0x212B then Char.ofNat 0xE5
  else c

/-- Models Python `str.lower()` on a whole string. -/
def pyLower (s : PyStr) : PyStr := s.map pyLowerChar

/-- The `valid_reasons` list of `validate_card_details`
(`service_agent.py`, line 172). -/
def valid_reasons : List PyStr :=
  ["lost".data, "stolen".data, "damaged".data, "expired".data]

/-- Error message for the digit-field check (line 161). -/
def digitsMsg : PyStr := "Last 4 digits must be exactly 4 numeric characters".data

/-- Error message for the name check (line 165). -/
def nameMsg : PyStr := "Cardholder name must be at least 2 characters".data

/-- Error message for the address check (line 169). -/
def addressMsg : PyStr := "Address must be at least 10 characters".data

/-- Error message for the reason check (line 174): the f-string with
`", ".join(valid_reasons)` interpolated. -/
def reasonMsg : PyStr :=
  "Replacement reason must be one of: lost, stolen, damaged, expired".data

/-- Result of `validate_card_details`: the returned dict is one of two
shapes, the failure dict (keys `valid=False`, `errors`, `status`) or the
success dict (keys `valid=True`, the four fields, `status`).  The
`status` string of each shape is carried verbatim. -/
inductive ValidationResult where
  | invalid (errors : List PyStr) (status : PyStr)
  | valid (last_four_digits cardholder_name address replacement_reason status : PyStr)
  deriving DecidableEq

/-- `True` on the success shape (`valid=True` in the returned dict). -/
def ValidationResult.isValid : ValidationResult → Bool
  | .invalid _ _ => false
  | .valid _ _ _ _ _ => true

/-- The `errors` key of the result (`[]` on the success shape, which
has no such key). -/
def ValidationResult.errors : ValidationResult → List PyStr
  | .invalid errs _ => errs
  | .valid _ _ _ _ _ => []

/-- Embedding of `validate_card_details` (`service_agent.py`,
lines 138-190): the four checks run in order, each appending its message
to `errors`; the failure dict is returned when `errors` is non-empty,
the success dict with trimmed name and address and lowercased reason
otherwise. -/
def validate_card_details (last_four_digits cardholder_name address replacement_reason : PyStr) :
    ValidationResult :=
  let errors0 : List PyStr := []
  let errors1 :=
    if last_four_digits = [] ∨ last_four_digits.length ≠ 4 ∨
        ¬ pyIsDigitStr last_four_digits then
      errors0 ++ [digitsMsg]
    else errors0
  let errors2 :=
    if cardholder_name = [] ∨ (pyStrip cardholder_name).length < 2 then
      errors1 ++ [nameMsg]
    else errors1
  let errors3 :=
    if address = [] ∨ (pyStrip address).length < 10 then
      errors2 ++ [addressMsg]
    else errors2
  let errors4 :=
    if replacement_reason = [] ∨ pyLower replacement_reason ∉ valid_reasons then
      errors3 ++ [reasonMsg]
    else errors3
  if errors4 = [] then
    .valid last_four_digits (pyStrip cardholder_name) (pyStrip address)
      (pyLower replacement_reason) "validated".data
  else
    .invalid errors4 "validation_failed".data

/-- `string.ascii_uppercase + string.digits`, the 36-character population
passed to `random.choices` (`service_agent.py`, line 213). -/
def ticketAlphabet : PyStr := "ABCDEFGHIJKLMNOPQRSTUVWXYZ0123456789".data

/-- The `processing_days` dict of `issue_replacement_ticket`
(`service_agent.py`, lines 216-221), as an association list. -/
def processing_days : List (PyStr × Nat) :=
  [("lost".data, 3), ("stolen".data, 1), ("damaged".data, 2), ("expired".data, 5)]

/-- The dict returned by `issue_replacement_ticket` (lines 225-233). -/
structure ReplacementTicket where
  ticket_id : PyStr
  status : PyStr
  cardholder_name : PyStr
  last_four_digits : PyStr
  replacement_reason : PyStr
  estimated_processing_days : Nat
  message : PyStr
  deriving DecidableEq

/-- Embedding of `issue_replacement_ticket` (`service_agent.py`,
lines 194-233).  The process-wide randomness source is made explicit:
`r i` is the index into the 36-character population that
`random.choices` draws for position `i` of the ticket-ID suffix;
`dict.get(key, 3)` is `List.lookup` with default `3`. -/
def issue_replacement_ticket (r : Fin 8 → Fin 36)
    (last_four_digits cardholder_name address replacement_reason : PyStr) :
    ReplacementTicket :=
  let ticket_id :=
    "TICKET-".data ++
      List.ofFn fun i : Fin 8 =>
        ticketAlphabet.get ((r i).cast (by decide))
  let days := (processing_days.lookup (pyLower replacement_reason)).getD 3
  { ticket_id := ticket_id
    status := "issued".data
    cardholder_name := cardholder_name
    last_four_digits := last_four_digits
    replacement_reason := replacement_reason
    estimated_processing_days := days
    message :=
      "Replacement ticket ".data ++ ticket_id ++
        " issued successfully. New card will arrive in ".data ++
        (Nat.repr days).data ++ " business days.".data }

/-! The four field constraints.  `nameConstraint`, `addressConstraint`
and `reasonConstraint` state §4.1 checks 2-4 from the spec's words and
coincide with the code's guards.  For the digit field the spec (§3:
"exactly 4 ASCII digits", §4.1 check 1) and the code diverge:
`specDigitsConstraint` states the spec's constraint, while
`digitsConstraint` is the strictly wider class the code's digit guard
accepts (Python `str.isdigit`). -/

/-- The class of digit fields accepted by the code's digit guard
(line 160): non-empty, length exactly 4, every character a Python-digit
character (`pyIsDigit`).  Strictly wider than the spec's
`specDigitsConstraint`. -/
def digitsConstraint (s : PyStr) : Prop :=
  s ≠ [] ∧ s.length = 4 ∧ ∀ c ∈ s, pyIsDigit c

/-- §4.1 check 1 as the specification words it (with §3: "exactly 4
ASCII digits"): non-empty, length exactly 4, every character an ASCII
decimal digit. -/
def specDigitsConstraint (s : PyStr) : Prop :=
  s ≠ [] ∧ s.length = 4 ∧ ∀ c ∈ s, c.isDigit

/-- §4.1 check 2: `cardholderName` non-empty after trimming whitespace,
trimmed length at least 2. -/
def nameConstraint (s : PyStr) : Prop :=
  pyStrip s ≠ [] ∧ 2 ≤ (pyStrip s).length

/-- §4.1 check 3: `address` non-empty after trimming, trimmed length at
least 10. -/
def addressConstraint (s : PyStr) : Prop :=
  pyStrip s ≠ [] ∧ 10 ≤ (pyStrip s).length

/-- §4.1 check 4: `replacementReason` non-empty and, case-insensitively,
a member of the four allowed reasons. -/
def reasonConstraint (s : PyStr) : Prop :=
  s ≠ [] ∧ pyLower s ∈ valid_reasons

instance (s : PyStr) : Decidable (digitsConstraint s) := by
  unfold digitsConstraint; infer_instance

instance (s : PyStr) : Decidable (specDigitsConstraint s) := by
  unfold specDigitsConstraint; infer_instance

instance (s : PyStr) : Decidable (nameConstraint s) := by
  unfold nameConstraint; infer_instance

instance (s : PyStr) : Decidable (addressConstraint s) := by
  unfold addressConstraint; infer_instance

instance (s : PyStr) : Decidable (reasonConstraint s) := by
  unfold reasonConstraint; infer_instance

/-- The error list the program produces: one message per failing code
check, in the order digits, name, address, reason.  The digit entry is
governed by `digitsConstraint` (the code's Python-`isdigit` class), not
by the spec's `specDigitsConstraint`, so on a digit field of non-ASCII
digits the digit message is absent although the spec's constraint
fails. -/
def checkErrorList (last_four_digits cardholder_name address replacement_reason : PyStr) :
    List PyStr :=
  (if digitsConstraint last_four_digits then [] else [digitsMsg]) ++
  (if nameConstraint cardholder_name then [] else [nameMsg]) ++
  (if addressConstraint address then [] else [addressMsg]) ++
  (if reasonConstraint replacement_reason then [] else [reasonMsg])

/-! Lemmas connecting the code's guard conditions with the constraint
predicates, and a full characterization of `validate_card_details`. -/

/-- The code's digit guard (line 160) fires exactly when the code's
digit-pass class `digitsConstraint` fails. -/
theorem digits_guard_iff (s : PyStr) :
    (s = [] ∨ s.length ≠ 4 ∨ ¬ pyIsDigitStr s) ↔ ¬ digitsConstraint s := by
  unfold digitsConstraint pyIsDigitStr
  constructor
  · rintro (h | h | h) ⟨h1, h2, h3⟩
    · exact h1 h
    · exact h h2
    · refine h ?_
      cases s with
      | nil => exact absurd rfl h1
      | cons x xs => simpa [List.all_eq_true] using h3
  · intro h
    by_cases h1 : s = []
    · exact Or.inl h1
    by_cases h2 : s.length = 4
    · refine Or.inr (Or.inr ?_)
      intro hd
      refine h ⟨h1, h2, ?_⟩
      simp only [Bool.and_eq_true, List.all_eq_true] at hd
      exact hd.2
    · exact Or.inr (Or.inl h2)

/-- The code's name guard (line 164) fires exactly when §4.1 check 2
fails. -/
theorem name_guard_iff (s : PyStr) :
    (s = [] ∨ (pyStrip s).length < 2) ↔ ¬ nameConstraint s := by
  unfold nameConstraint
  constructor
  · rintro (h | h) ⟨h1, h2⟩
    · subst h; exact h1 rfl
    · omega
  · intro h
    by_cases h1 : s = []
    · exact Or.inl h1
    · refine Or.inr ?_
      by_contra hlen
      exact h ⟨List.ne_nil_of_length_pos (by omega), by omega⟩

/-- The code's address guard (line 168) fires exactly when §4.1 check 3
fails. -/
theorem address_guard_iff (s : PyStr) :
    (s = [] ∨ (pyStrip s).length < 10) ↔ ¬ addressConstraint s := by
  unfold addressConstraint
  constructor
  · rintro (h | h) ⟨h1, h2⟩
    · subst h; exact h1 rfl
    · omega
  · intro h
    by_cases h1 : s = []
    · exact Or.inl h1
    · refine Or.inr ?_
      by_contra hlen
      exact h ⟨List.ne_nil_of_length_pos (by omega), by omega⟩

/-- The code's reason guard (line 173) fires exactly when §4.1 check 4
fails. -/
theorem reason_guard_iff (s : PyStr) :
    (s = [] ∨ pyLower s ∉ valid_reasons) ↔ ¬ reasonConstraint s := by
  unfold reasonConstraint
  constructor
  · rintro (h | h) ⟨h1, h2⟩
    · exact h1 h
    · exact h h2
  · intro h
    by_cases h1 : s = []
    · exact Or.inl h1
    by_cases h2 : pyLower s ∈ valid_reasons
    · exact absurd ⟨h1, h2⟩ h
    · exact Or.inr h2

/-- Full characterization of `validate_card_details`: the success dict
exactly when all four code checks pass (the digit check per
`digitsConstraint`), otherwise the failure dict carrying
`checkErrorList`. -/
theorem validate_card_details_characterization
    (l n a rr : PyStr) :
    validate_card_details l n a rr =
      if digitsConstraint l ∧ nameConstraint n ∧ addressConstraint a ∧ reasonConstraint rr then
        .valid l (pyStrip n) (pyStrip a) (pyLower rr) "validated".data
      else
        .invalid (checkErrorList l n a rr) "validation_failed".data := by
  unfold validate_card_details checkErrorList
  simp only [digits_guard_iff, name_guard_iff, address_guard_iff, reason_guard_iff]
  by_cases h1 : digitsConstraint l <;>
    by_cases h2 : nameConstraint n <;>
      by_cases h3 : addressConstraint a <;>
        by_cases h4 : reasonConstraint rr <;>
          simp [h1, h2, h3, h4]

/-- The digit-failure message occurs in `checkErrorList` exactly when
the code's digit check fails (the four messages are pairwise
distinct). -/
theorem digitsMsg_mem_checkErrorList (l n a rr : PyStr) :
    digitsMsg ∈ checkErrorList l n a rr ↔ ¬ digitsConstraint l := by
  unfold checkErrorList
  by_cases h1 : digitsConstraint l <;>
    by_cases h2 : nameConstraint n <;>
      by_cases h3 : addressConstraint a <;>
        by_cases h4 : reasonConstraint rr <;>
          simp [h1, h2, h3, h4] <;> decide

/-- The code's digit-pass class restated without the redundant
non-emptiness conjunct (length 4 already forces non-emptiness). -/
theorem digitsConstraint_iff (l : PyStr) :
    digitsConstraint l ↔ l.length = 4 ∧ ∀ c ∈ l, pyIsDigit c := by
  unfold digitsConstraint
  constructor
  · rintro ⟨_, h2, h3⟩; exact ⟨h2, h3⟩
  · rintro ⟨h2, h3⟩
    exact ⟨List.ne_nil_of_length_pos (by omega), h2, h3⟩

/-- C1 counterexample: four Arabic-Indic zeros with otherwise-valid
fields validate fully (`valid=True`), although the spec's §4.1/§3 digit
constraint (exactly 4 ASCII digits) fails, so "Valid iff all four field
constraints of §4.1 hold" is false as stated. -/
theorem valid_without_spec_digit_constraint :
    (validate_card_details "٠٠٠٠".data "John Smith".data
        "123 Main Street, Anytown, NY 12345".data "lost".data).isValid = true ∧
    ¬ (specDigitsConstraint "٠٠٠٠".data ∧ nameConstraint "John Smith".data ∧
        addressConstraint "123 Main Street, Anytown, NY 12345".data ∧
        reasonConstraint "lost".data) := by
  decide

/-- C1 amended: `validate_card_details` returns the `valid=True` result
iff the name, address and reason constraints of §4.1 hold and the digit
field has length exactly 4 with every character a digit in the sense of
Python `str.isdigit` (`pyIsDigit`, strictly wider than the spec's ASCII
digit class); by the shape of `ValidationResult`, no result
representing partial validity exists. -/
theorem validate_valid_iff_code_checks (l n a rr : PyStr) :
    (validate_card_details l n a rr).isValid = true ↔
      (l.length = 4 ∧ ∀ c ∈ l, pyIsDigit c) ∧
        nameConstraint n ∧ addressConstraint a ∧ reasonConstraint rr := by
  rw [validate_card_details_characterization, ← digitsConstraint_iff]
  by_cases h : digitsConstraint l ∧ nameConstraint n ∧ addressConstraint a ∧ reasonConstraint rr <;>
    simp [h, ValidationResult.isValid]

/-- C2 counterexample: on `("٠٠٠٠", "J", "short", "misplaced")` all
four §4.1 constraints fail under the spec's ASCII digit reading, yet
the program emits only three messages — the digit message is absent —
so "exactly one message per failing constraint" is false as stated. -/
theorem three_messages_for_four_failing_constraints :
    (¬ specDigitsConstraint "٠٠٠٠".data ∧ ¬ nameConstraint "J".data ∧
      ¬ addressConstraint "short".data ∧ ¬ reasonConstraint "misplaced".data) ∧
    validate_card_details "٠٠٠٠".data "J".data "short".data "misplaced".data =
      .invalid [nameMsg, addressMsg, reasonMsg] "validation_failed".data := by
  decide

/-- C2 amended: whenever some code check fails (the §4.1 constraints
with the digit constraint read as the Python `str.isdigit` class),
`validate_card_details` returns the failure dict with
`status="validation_failed"` and a non-empty error list holding exactly
one message per failing code check in the enumeration order digits,
name, address, reason (the order and content of `checkErrorList`);
counted against the spec's ASCII digit constraint, the digit message
can be absent for a failing digit constraint. -/
theorem validate_invalid_check_error_list (l n a rr : PyStr)
    (h : ¬ (digitsConstraint l ∧ nameConstraint n ∧ addressConstraint a ∧ reasonConstraint rr)) :
    validate_card_details l n a rr =
      .invalid (checkErrorList l n a rr) "validation_failed".data ∧
    checkErrorList l n a rr ≠ [] := by
  constructor
  · rw [validate_card_details_characterization]; simp [h]
  · unfold checkErrorList
    by_cases h1 : digitsConstraint l
    · by_cases h2 : nameConstraint n
      · by_cases h3 : addressConstraint a
        · by_cases h4 : reasonConstraint rr
          · exact absurd ⟨h1, h2, h3, h4⟩ h
          · simp [h1, h2, h3, h4]
        · simp [h1, h2, h3]
      · simp [h1, h2]
    · simp [h1]

/-- Witness for C2: the spec's scenario 6 input fails all four checks
and yields the four messages. -/
theorem validate_invalid_check_error_list_witness :
    ¬ (digitsConstraint "48".data ∧ nameConstraint "J".data ∧
        addressConstraint "short".data ∧ reasonConstraint "misplaced".data) ∧
    (validate_card_details "48".data "J".data "short".data "misplaced".data =
        .invalid (checkErrorList "48".data "J".data "short".data "misplaced".data)
          "validation_failed".data ∧
      checkErrorList "48".data "J".data "short".data "misplaced".data ≠ []) :=
  ⟨by decide, validate_invalid_check_error_list "48".data "J".data "short".data "misplaced".data
    (by decide)⟩

/-- C3 counterexample: four Arabic-Indic zeros are not ASCII digits, yet
the digit check passes (Python `str.isdigit` accepts them), so
`validate_card_details` reports no digit-field error — the input even
validates fully. -/
theorem digit_check_not_ascii_only :
    (validate_card_details "٠٠٠٠".data "John Smith".data
        "123 Main Street, Anytown, NY 12345".data "lost".data).isValid = true ∧
    digitsMsg ∉ (validate_card_details "٠٠٠٠".data "John Smith".data
        "123 Main Street, Anytown, NY 12345".data "lost".data).errors ∧
    ¬ ("٠٠٠٠".data ≠ [] ∧ ("٠٠٠٠".data).length = 4 ∧
        ∀ c ∈ "٠٠٠٠".data, c.isDigit) := by
  decide

/-- C3 amended: `validate_card_details` reports no digit-field error
exactly when `lastFourDigits` has length exactly 4 and every character
is a digit character in the sense of Python `str.isdigit`
(`pyIsDigit`), a class that strictly contains the ASCII digits. -/
theorem digit_error_iff_not_pyIsDigit (l n a rr : PyStr) :
    digitsMsg ∉ (validate_card_details l n a rr).errors ↔
      l.length = 4 ∧ ∀ c ∈ l, pyIsDigit c := by
  rw [validate_card_details_characterization, ← digitsConstraint_iff]
  by_cases h : digitsConstraint l ∧ nameConstraint n ∧ addressConstraint a ∧ reasonConstraint rr
  · simp [h, ValidationResult.errors, h.1]
  · simp [h, ValidationResult.errors, digitsMsg_mem_checkErrorList]

/-- C4: on inputs satisfying all four constraints,
`validate_card_details` returns the success dict with the digits
unchanged, name and address trimmed, reason lowercased, and
`status="validated"`. -/
theorem validate_valid_normalization (l n a rr : PyStr)
    (h : digitsConstraint l ∧ nameConstraint n ∧ addressConstraint a ∧ reasonConstraint rr) :
    validate_card_details l n a rr =
      .valid l (pyStrip n) (pyStrip a) (pyLower rr) "validated".data := by
  rw [validate_card_details_characterization]; simp [h]

/-- Witness for C4: the spec's scenario 5 input satisfies all four
constraints and validates to the normalized success dict. -/
theorem validate_valid_normalization_witness :
    (digitsConstraint "4829".data ∧ nameConstraint "John Smith".data ∧
      addressConstraint "123 Main Street, Anytown, NY 12345".data ∧
      reasonConstraint "lost".data) ∧
    validate_card_details "4829".data "John Smith".data
        "123 Main Street, Anytown, NY 12345".data "lost".data =
      .valid "4829".data (pyStrip "John Smith".data)
        (pyStrip "123 Main Street, Anytown, NY 12345".data)
        (pyLower "lost".data) "validated".data :=
  ⟨by decide, validate_valid_normalization "4829".data "John Smith".data
    "123 Main Street, Anytown, NY 12345".data "lost".data (by decide)⟩

/-- C5: for every randomness outcome and every input,
`issue_replacement_ticket` sets `estimated_processing_days` by the
fixed table on the lowercased reason (lost=3, stolen=1, damaged=2,
expired=5, default 3), so the estimate always lies in `{1, 2, 3, 5}`. -/
theorem ticket_processing_days (r : Fin 8 → Fin 36) (l n a rr : PyStr) :
    ((issue_replacement_ticket r l n a rr).estimated_processing_days =
      if pyLower rr = "lost".data then 3
      else if pyLower rr = "stolen".data then 1
      else if pyLower rr = "damaged".data then 2
      else if pyLower rr = "expired".data then 5
      else 3) ∧
    (issue_replacement_ticket r l n a rr).estimated_processing_days ∈ [1, 2, 3, 5] := by
  have hdays : (issue_replacement_ticket r l n a rr).estimated_processing_days =
      (processing_days.lookup (pyLower rr)).getD 3 := rfl
  have hdeq : (issue_replacement_ticket r l n a rr).estimated_processing_days =
      if pyLower rr = "lost".data then 3
      else if pyLower rr = "stolen".data then 1
      else if pyLower rr = "damaged".data then 2
      else if pyLower rr = "expired".data then 5
      else 3 := by
    rw [hdays]
    by_cases h1 : pyLower rr = "lost".data
    · rw [h1]; decide
    · by_cases h2 : pyLower rr = "stolen".data
      · rw [h2]; decide
      · by_cases h3 : pyLower rr = "damaged".data
        · rw [h3]; decide
        · by_cases h4 : pyLower rr = "expired".data
          · rw [h4]; decide
          · have b1 : (pyLower rr == "lost".data) = false := beq_eq_false_iff_ne.mpr h1
            have b2 : (pyLower rr == "stolen".data) = false := beq_eq_false_iff_ne.mpr h2
            have b3 : (pyLower rr == "damaged".data) = false := beq_eq_false_iff_ne.mpr h3
            have b4 : (pyLower rr == "expired".data) = false := beq_eq_false_iff_ne.mpr h4
            simp [processing_days, List.lookup, b1, b2, b3, b4, h1, h2, h3, h4]
  refine ⟨hdeq, ?_⟩
  rw [hdeq]
  split_ifs <;> simp

/-- C6: for every randomness outcome, the ticket ID is `TICKET-`
followed by exactly 8 characters, each a member of the 36-character
population `[A-Z0-9]`. -/
theorem ticket_id_format (r : Fin 8 → Fin 36) (l n a rr : PyStr) :
    ∃ suffix : PyStr,
      (issue_replacement_ticket r l n a rr).ticket_id = "TICKET-".data ++ suffix ∧
      suffix.length = 8 ∧ ∀ c ∈ suffix, c ∈ ticketAlphabet := by
  refine ⟨List.ofFn (fun i : Fin 8 => ticketAlphabet.get ((r i).cast (by decide))),
    rfl, by simp, ?_⟩
  intro c hc
  rw [List.mem_ofFn] at hc
  obtain ⟨i, hi⟩ := hc
  rw [← hi]
  exact List.get_mem _ _ _

/-- C7: on the mixed-case reason `"STOLEN"` (other fields valid),
`validate_card_details` returns the success dict with the reason
normalized to `"stolen"`, and issuing a ticket from that normalized
reason yields an estimate of 1 day, for every randomness outcome. -/
theorem stolen_scenario :
    validate_card_details "4829".data "John Smith".data
        "123 Main Street, Anytown, NY 12345".data "STOLEN".data =
      .valid "4829".data "John Smith".data
        "123 Main Street, Anytown, NY 12345".data "stolen".data "validated".data ∧
    ∀ r : Fin 8 → Fin 36,
      (issue_replacement_ticket r "4829".data "John Smith".data
          "123 Main Street, Anytown, NY 12345".data "stolen".data).estimated_processing_days = 1 :=
  ⟨by decide, fun _ => rfl⟩

/-- C8: `validate_card_details` is deterministic — it embeds as a pure
function of its four arguments (the source reads and writes no module
state), so two calls on the same input are structurally identical. -/
theorem validate_deterministic (l n a rr : PyStr) :
    validate_card_details l n a rr = validate_card_details l n a rr := rfl

/-- C9: the `replacement_reason` field of an issued ticket echoes the
argument verbatim (no lowercasing or trimming), while the
processing-days lookup uses the lowercased form. -/
theorem ticket_reason_verbatim (r : Fin 8 → Fin 36) (l n a rr : PyStr) :
    (issue_replacement_ticket r l n a rr).replacement_reason = rr ∧
    (issue_replacement_ticket r l n a rr).estimated_processing_days =
      (processing_days.lookup (pyLower rr)).getD 3 :=
  ⟨rfl, rfl⟩

/-- C10: both core functions are total on all string inputs — every
call returns a dict of the expected shape, and
`issue_replacement_ticket` always returns `status="issued"`. -/
theorem core_functions_total (r : Fin 8 → Fin 36) (l n a rr : PyStr) :
    (issue_replacement_ticket r l n a rr).status = "issued".data ∧
    ((∃ errs st, validate_card_details l n a rr = .invalid errs st) ∨
      (∃ d nm ad rs st, validate_card_details l n a rr = .valid d nm ad rs st)) := by
  refine ⟨rfl, ?_⟩
  cases h : validate_card_details l n a rr with
  | invalid errs st => exact Or.inl ⟨errs, st, rfl⟩
  | valid d nm ad rs st => exact Or.inr ⟨d, nm, ad, rs, st, rfl⟩

end CardService
